import Mathlib

/-!
Verification of the client-side session protocol of `frontend/src/app/page.tsx`
(browser-use-web-ui): the React state held by the `Home` component and the three
handlers that mutate it — `ws.onmessage`, `handleSubmit`, `handleStop` — are
shallowly embedded as pure Lean functions on an explicit state record, and the
spec's claims about them are settled as theorems.
-/

namespace BrowserUseWebUI

/-- The spec's session phase, derived from the component state (the source keeps
no explicit phase field; `isLoading` is the running flag, `error`/`result` the
terminal outcome). -/
inductive Phase where
  | Idle
  | Running
  | Done
  | Errored
deriving DecidableEq, Repr

/-- The React state of the `Home` component:
`task`, `logs`, `screenshot`, `result`, `error`, `isLoading` from the
`useState` hooks in `page.tsx`. `screenshot` and `error` are nullable in the
source (`string | null`), hence `Option String`. -/
structure SessionState where
  task : String
  logs : List String
  screenshot : Option String
  result : String
  error : Option String
  isLoading : Bool
deriving DecidableEq, Repr

/-- The initial state of the component: the long default task text, empty logs,
no screenshot, empty result, no error, not loading. -/
def initialState : SessionState :=
  { task := "Navigate to https://www.google.com, input 'Python' into the search bar, wait 5 seconds, click the first search result link using a CSS selector like 'h3' within 'a', wait 5 seconds, then extract all text content from the page."
    logs := []
    screenshot := none
    result := ""
    error := none
    isLoading := false }

/-- An inbound channel message after `JSON.parse`: a JSON object whose fields
may each be present or absent. This covers the well-formed `StepData`,
`DoneData` and `ErrorData` shapes of the source as well as malformed payloads
(e.g. all fields absent). The `actions` array is never read by the handler and
is carried opaquely. -/
structure RawMsg where
  status : Option String := none
  result : Option String := none
  message : Option String := none
  step : Option Nat := none
  thought : Option String := none
  actions : List (List (String × String)) := []
  screenshot : Option String := none
deriving DecidableEq, Repr

/-- JS template-literal rendering of a possibly-absent string field:
an absent field (`undefined`) prints as "undefined". -/
def jsFieldStr : Option String → String
  | none => "undefined"
  | some s => s

/-- JS template-literal rendering of a possibly-absent numeric field. -/
def jsFieldNat : Option Nat → String
  | none => "undefined"
  | some n => toString n

/-- The log line built in `ws.onmessage`:
the template literal over `stepData.step` and `stepData.thought`. -/
def stepLogLine (m : RawMsg) : String :=
  "Step " ++ jsFieldNat m.step ++ ": " ++ jsFieldStr m.thought

/-- JS truthiness of a possibly-absent string: `undefined` and the empty
string are falsy. -/
def jsTruthy : Option String → Bool
  | none => false
  | some s => s != ""

/-- The `ws.onmessage` handler of `page.tsx`, applied to the parsed payload:
if a `status` field is present it dispatches on `"done"` / `"error"`
(anything else does nothing); otherwise the payload is treated as `StepData`:
a log line is appended and, when `stepData.screenshot` is truthy, the
screenshot is replaced by the data URL built from it.
JS `undefined` flowing into the string-typed `result` via `setResult` is
modelled as the empty string (the same truthiness). -/
def onMessage (s : SessionState) (m : RawMsg) : SessionState :=
  match m.status with
  | some st =>
      if st = "done" then
        { s with result := m.result.getD "", isLoading := false }
      else if st = "error" then
        { s with error := m.message, isLoading := false }
      else
        s
  | none =>
      let s1 := { s with logs := s.logs ++ [stepLogLine m] }
      if jsTruthy m.screenshot then
        { s1 with screenshot := some ("data:image/png;base64," ++ m.screenshot.getD "") }
      else
        s1

/-- The spec's derived `phase`: Running iff the running flag is set; otherwise
Errored when an error message is recorded, Done when a (non-empty) result is
recorded, Idle otherwise. -/
def SessionState.phase (s : SessionState) : Phase :=
  if s.isLoading then Phase.Running
  else if s.error.isSome then Phase.Errored
  else if s.result != "" then Phase.Done
  else Phase.Idle

/-- The spec's derived `terminalOutcome`: the recorded error message if any,
else the recorded result text if non-empty, else absent. -/
def SessionState.terminalOutcome (s : SessionState) : Option String :=
  match s.error with
  | some e => some e
  | none => if s.result = "" then none else some s.result

/-- A well-formed StepEvent payload: `step`, `thought` and optional
`screenshot`, no `status` discriminator. -/
def stepMsg (i : Nat) (rationale : String) (ss : Option String) : RawMsg :=
  { step := some i, thought := some rationale, screenshot := ss }

/-- A well-formed Done TerminalEvent payload. -/
def doneMsg (r : String) : RawMsg :=
  { status := some "done", result := some r }

/-- A well-formed Errored TerminalEvent payload. -/
def errorMsg (e : String) : RawMsg :=
  { status := some "error", message := some e }

/-- A maximally malformed inbound payload: a JSON object with none of the
known fields (in particular missing both `status` and `step`). -/
def malformedMsg : RawMsg := {}

/-- The possible outcomes of the one-shot `fetch` in `handleSubmit`:
a success response, a non-ok response (which the source turns into
`throw new Error("Failed to start task")`), or a transport exception. -/
inductive FetchOutcome where
  | ok (body : String)
  | httpError
  | exn (msg : String)
deriving DecidableEq, Repr

/-- Whether the outcome is a failure (non-success response or exception). -/
def FetchOutcome.isFailure : FetchOutcome → Bool
  | .ok _ => false
  | .httpError => true
  | .exn _ => true

/-- The `err.message` seen by the catch block of `handleSubmit`. -/
def failureMessage : FetchOutcome → String
  | .ok _ => ""
  | .httpError => "Failed to start task"
  | .exn m => m

/-- The synchronous reset performed by an accepted `handleSubmit` before the
awaited request: clear logs, screenshot, result, error; set the running flag. -/
def submitReset (s : SessionState) : SessionState :=
  { s with logs := [], screenshot := none, result := "", error := none,
           isLoading := true }

/-- The `handleSubmit` handler: a no-op returning zero requests when the task
text is empty or a task is already loading; otherwise it resets the state,
issues exactly one request, and on a failed outcome records the failure
message as `error` and clears the running flag (the catch block). The second
component counts the outbound requests issued by the call. -/
def handleSubmit (s : SessionState) (o : FetchOutcome) : SessionState × Nat :=
  if s.task = "" ∨ s.isLoading = true then (s, 0)
  else
    let s1 := submitReset s
    match o with
    | .ok _ => (s1, 1)
    | .httpError => ({ s1 with error := some "Failed to start task", isLoading := false }, 1)
    | .exn m => ({ s1 with error := some m, isLoading := false }, 1)

/-- The `readyState` of the WebSocket ref: absent ref or one of the four
WebSocket states. -/
inductive WsReadyState where
  | connecting
  | isOpen
  | closing
  | closed
deriving DecidableEq, Repr

/-- The `handleStop` handler: sends the literal `"stop"` token iff the
WebSocket ref is non-null and its `readyState` is OPEN; the state is not
touched. The second component is the token written to the channel, if any. -/
def handleStop (s : SessionState) (ws : Option WsReadyState) :
    SessionState × Option String :=
  if ws = some WsReadyState.isOpen then (s, some "stop") else (s, none)

/-- The `disabled` attribute of the Stop button: disabled iff not loading. -/
def stopButtonDisabled (s : SessionState) : Bool :=
  !s.isLoading

/-- Folding a list of well-formed StepEvents (index, rationale, optional
screenshot payload) into the state through `ws.onmessage`, in arrival order. -/
def applySteps (s : SessionState) (events : List (Nat × String × Option String)) :
    SessionState :=
  events.foldl (fun st e => onMessage st (stepMsg e.1 e.2.1 e.2.2)) s

/-- The log line a well-formed StepEvent produces. -/
def stepLine (e : Nat × String × Option String) : String :=
  "Step " ++ toString e.1 ++ ": " ++ e.2.1

/-! ### Helper lemmas -/

theorem phase_running_iff (s : SessionState) :
    s.phase = Phase.Running ↔ s.isLoading = true := by
  unfold SessionState.phase
  cases h : s.isLoading
  · simp only [Bool.false_eq_true, if_false, iff_false]
    split
    · simp
    · split <;> simp
  · simp

theorem onMessage_step_eq (s : SessionState) (m : RawMsg) (hst : m.status = none) :
    onMessage s m =
      if jsTruthy m.screenshot then
        { s with logs := s.logs ++ [stepLogLine m],
                 screenshot := some ("data:image/png;base64," ++ m.screenshot.getD "") }
      else
        { s with logs := s.logs ++ [stepLogLine m] } := by
  obtain ⟨st, res, msg, stp, th, ac, ss⟩ := m
  simp only at hst
  subst hst
  simp only [onMessage]

theorem onMessage_done_eq (s : SessionState) (m : RawMsg) (h : m.status = some "done") :
    onMessage s m = { s with result := m.result.getD "", isLoading := false } := by
  obtain ⟨st, res, msg, stp, th, ac, ss⟩ := m
  simp only at h
  subst h
  simp [onMessage]

theorem onMessage_error_eq (s : SessionState) (m : RawMsg) (h : m.status = some "error") :
    onMessage s m = { s with error := m.message, isLoading := false } := by
  obtain ⟨st, res, msg, stp, th, ac, ss⟩ := m
  simp only at h
  subst h
  simp [onMessage]

theorem phase_eq_of (a b : SessionState) (h1 : a.isLoading = b.isLoading)
    (h2 : a.error = b.error) (h3 : a.result = b.result) : a.phase = b.phase := by
  unfold SessionState.phase
  rw [h1, h2, h3]

theorem terminalOutcome_eq_of (a b : SessionState) (h2 : a.error = b.error)
    (h3 : a.result = b.result) : a.terminalOutcome = b.terminalOutcome := by
  unfold SessionState.terminalOutcome
  rw [h2, h3]

theorem onMessage_step_frame (s : SessionState) (m : RawMsg) (hst : m.status = none) :
    (onMessage s m).task = s.task ∧ (onMessage s m).result = s.result ∧
    (onMessage s m).error = s.error ∧ (onMessage s m).isLoading = s.isLoading := by
  rw [onMessage_step_eq s m hst]
  split <;> simp

theorem onMessage_step_logs (s : SessionState) (m : RawMsg) (hst : m.status = none) :
    (onMessage s m).logs = s.logs ++ [stepLogLine m] := by
  rw [onMessage_step_eq s m hst]
  split <;> simp

theorem applySteps_logs (events : List (Nat × String × Option String)) :
    ∀ s : SessionState, (applySteps s events).logs = s.logs ++ events.map stepLine := by
  induction events with
  | nil => intro s; simp [applySteps]
  | cons e es ih =>
    intro s
    have hline : stepLogLine (stepMsg e.1 e.2.1 e.2.2) = stepLine e := by
      simp [stepLogLine, stepMsg, stepLine, jsFieldNat, jsFieldStr]
    have hstep : (onMessage s (stepMsg e.1 e.2.1 e.2.2)).logs = s.logs ++ [stepLine e] := by
      rw [onMessage_step_logs s _ rfl, hline]
    show (applySteps (onMessage s (stepMsg e.1 e.2.1 e.2.2)) es).logs = _
    rw [ih, hstep]
    simp

theorem applySteps_isLoading (events : List (Nat × String × Option String)) :
    ∀ s : SessionState, (applySteps s events).isLoading = s.isLoading := by
  induction events with
  | nil => intro s; simp [applySteps]
  | cons e es ih =>
    intro s
    show (applySteps (onMessage s (stepMsg e.1 e.2.1 e.2.2)) es).isLoading = _
    rw [ih, (onMessage_step_frame s _ rfl).2.2.2]

/-! ### Claim C1 -/

/-- C1 counterexample: starting from a Running session, apply the Done
TerminalEvent and then a further StepEvent; the log length changes (grows from
0 to 1), so post-terminal StepEvents are NOT ignored, refuting the claim at a
concrete input. -/
theorem c1_counterexample :
    ((onMessage (onMessage { initialState with isLoading := true } (doneMsg "OK"))
        (stepMsg 2 "late step" none)).logs.length
      ≠ (onMessage { initialState with isLoading := true } (doneMsg "OK")).logs.length) := by
  decide

/-- C1 (amended): after a TerminalEvent — indeed in every state — a further
StepEvent-shaped message is still applied: it appends exactly its derived log
line (so the log length grows by one) and, when it carries a truthy screenshot
payload, replaces `latestScreenshot`; only `phase` and `terminalOutcome` are
guaranteed unchanged by a post-terminal StepEvent. The handler has no
`phase == Running` guard. -/
theorem c1_amended (s : SessionState) (m : RawMsg) (hst : m.status = none) :
    (onMessage s m).logs = s.logs ++ [stepLogLine m] ∧
    (onMessage s m).logs.length = s.logs.length + 1 ∧
    (onMessage s m).phase = s.phase ∧
    (onMessage s m).terminalOutcome = s.terminalOutcome := by
  obtain ⟨-, hres, herr, hload⟩ := onMessage_step_frame s m hst
  refine ⟨onMessage_step_logs s m hst, ?_, ?_, ?_⟩
  · rw [onMessage_step_logs s m hst]; simp
  · exact phase_eq_of _ _ hload herr hres
  · exact terminalOutcome_eq_of _ _ herr hres

/-- C1 witness: the amended theorem evaluated at the terminal state reached
from a Running session by a Done event, with a concrete late StepEvent. -/
theorem c1_witness :
    (onMessage (onMessage { initialState with isLoading := true } (doneMsg "OK"))
        (stepMsg 2 "late step" none)).logs
      = (onMessage { initialState with isLoading := true } (doneMsg "OK")).logs
        ++ [stepLogLine (stepMsg 2 "late step" none)] ∧
    (onMessage (onMessage { initialState with isLoading := true } (doneMsg "OK"))
        (stepMsg 2 "late step" none)).logs.length
      = (onMessage { initialState with isLoading := true } (doneMsg "OK")).logs.length + 1 ∧
    (onMessage (onMessage { initialState with isLoading := true } (doneMsg "OK"))
        (stepMsg 2 "late step" none)).phase
      = (onMessage { initialState with isLoading := true } (doneMsg "OK")).phase ∧
    (onMessage (onMessage { initialState with isLoading := true } (doneMsg "OK"))
        (stepMsg 2 "late step" none)).terminalOutcome
      = (onMessage { initialState with isLoading := true } (doneMsg "OK")).terminalOutcome :=
  c1_amended (onMessage { initialState with isLoading := true } (doneMsg "OK"))
    (stepMsg 2 "late step" none) rfl

/-! ### Claim C2 -/

/-- C2 counterexample: an inbound message missing both `status` and `step`
(all fields absent) changes the log — it is dispatched down the StepData
branch and appends a line — so it is not discarded with state unchanged,
refuting the claim at a concrete input. -/
theorem c2_counterexample :
    (onMessage initialState malformedMsg).logs ≠ initialState.logs := by
  decide

/-- C2 (amended): a message missing both `status` and `step` is not rejected
as a decode failure; it is dispatched as a StepEvent and appends the garbage
line built from the absent fields (`"Step undefined: "` followed by the
`thought` field, itself rendered as `"undefined"` when absent). `phase`,
`terminalOutcome`, and — as long as the stray message carries no truthy
`screenshot` field — `latestScreenshot` are unchanged; no decode failure is
raised or logged. -/
theorem c2_amended (s : SessionState) (m : RawMsg)
    (hst : m.status = none) (hstep : m.step = none) :
    (onMessage s m).logs = s.logs ++ ["Step undefined: " ++ jsFieldStr m.thought] ∧
    (onMessage s m).phase = s.phase ∧
    (onMessage s m).terminalOutcome = s.terminalOutcome ∧
    (jsTruthy m.screenshot = false → (onMessage s m).screenshot = s.screenshot) := by
  obtain ⟨-, hres, herr, hload⟩ := onMessage_step_frame s m hst
  refine ⟨?_, phase_eq_of _ _ hload herr hres, terminalOutcome_eq_of _ _ herr hres, ?_⟩
  · rw [onMessage_step_logs s m hst]
    unfold stepLogLine
    rw [hstep]
    rfl
  · intro hss
    rw [onMessage_step_eq s m hst, if_neg]
    simp [hss]

/-- C2 witness: the amended theorem evaluated on the maximally malformed
message at the initial state. -/
theorem c2_witness :
    (onMessage initialState malformedMsg).logs
      = initialState.logs ++ ["Step undefined: " ++ jsFieldStr malformedMsg.thought] ∧
    (onMessage initialState malformedMsg).phase = initialState.phase ∧
    (onMessage initialState malformedMsg).terminalOutcome = initialState.terminalOutcome ∧
    (jsTruthy malformedMsg.screenshot = false →
      (onMessage initialState malformedMsg).screenshot = initialState.screenshot) :=
  c2_amended initialState malformedMsg rfl rfl

/-! ### Claim C9 -/

/-- C9: `handleStop` never mutates the session state: in every state and for
every WebSocket ready-state, the returned state is exactly the input state
(task text, logs, screenshot, result, error and the running flag are all
untouched); its only possible effect is the outbound token. -/
theorem c9_stop_pure (s : SessionState) (ws : Option WsReadyState) :
    (handleStop s ws).1 = s := by
  unfold handleStop
  split <;> rfl

/-! ### Claim C3 -/

/-- C3: `handleSubmit` is a no-op — state returned unchanged and zero outbound
requests — whenever the phase is Running (the `isLoading` guard) or the task
text is empty; in every other phase with non-empty task text it is accepted:
exactly one outbound request is issued and the synchronous reset clears the
log, the screenshot and the terminal outcome and sets the phase to Running. -/
theorem c3_submit (s : SessionState) (o : FetchOutcome) :
    ((s.phase = Phase.Running ∨ s.task = "") → handleSubmit s o = (s, 0)) ∧
    (s.phase ≠ Phase.Running → s.task ≠ "" →
      (handleSubmit s o).2 = 1 ∧
      (submitReset s).logs = [] ∧
      (submitReset s).screenshot = none ∧
      (submitReset s).terminalOutcome = none ∧
      (submitReset s).phase = Phase.Running) := by
  constructor
  · intro h
    have hcond : s.task = "" ∨ s.isLoading = true := by
      rcases h with h | h
      · exact Or.inr ((phase_running_iff s).1 h)
      · exact Or.inl h
    unfold handleSubmit
    rw [if_pos hcond]
  · intro hrun htask
    have hload : s.isLoading = false := by
      cases h : s.isLoading
      · rfl
      · exact absurd ((phase_running_iff s).2 h) hrun
    have hcond : ¬(s.task = "" ∨ s.isLoading = true) := by
      rintro (h | h)
      · exact htask h
      · rw [hload] at h; cases h
    refine ⟨?_, rfl, rfl, rfl, rfl⟩
    unfold handleSubmit
    rw [if_neg hcond]
    cases o <;> rfl

/-- C3 witness: at the initial state (Idle phase, non-empty default task) a
submission is accepted — one request, reset state Running with empty log —
and at the same state with the running flag set it is a no-op. -/
theorem c3_witness :
    ((handleSubmit initialState (FetchOutcome.ok "")).2 = 1 ∧
      (submitReset initialState).logs = [] ∧
      (submitReset initialState).screenshot = none ∧
      (submitReset initialState).terminalOutcome = none ∧
      (submitReset initialState).phase = Phase.Running) ∧
    handleSubmit { initialState with isLoading := true } (FetchOutcome.ok "")
      = ({ initialState with isLoading := true }, 0) :=
  ⟨(c3_submit initialState (FetchOutcome.ok "")).2 (by decide) (by decide),
   (c3_submit { initialState with isLoading := true } (FetchOutcome.ok "")).1
     (Or.inl (by decide))⟩

/-! ### Claim C4 -/

/-- C4: an accepted submission (phase not Running, non-empty task) whose
one-shot request fails — non-success response or transport exception — ends
with phase Errored, `terminalOutcome` equal to the failure message (the thrown
`"Failed to start task"` for a non-ok response, the exception's message
otherwise), and exactly one outbound request issued, so no retry occurs. -/
theorem c4_submit_failure (s : SessionState) (o : FetchOutcome)
    (hrun : s.phase ≠ Phase.Running) (htask : s.task ≠ "")
    (hfail : o.isFailure = true) :
    (handleSubmit s o).1.phase = Phase.Errored ∧
    (handleSubmit s o).1.terminalOutcome = some (failureMessage o) ∧
    (handleSubmit s o).2 = 1 := by
  have hload : s.isLoading = false := by
    cases h : s.isLoading
    · rfl
    · exact absurd ((phase_running_iff s).2 h) hrun
  have hcond : ¬(s.task = "" ∨ s.isLoading = true) := by
    rintro (h | h)
    · exact htask h
    · rw [hload] at h; cases h
  unfold handleSubmit
  rw [if_neg hcond]
  cases o with
  | ok b => simp [FetchOutcome.isFailure] at hfail
  | httpError =>
      refine ⟨?_, ?_, rfl⟩ <;>
        simp [submitReset, SessionState.phase, SessionState.terminalOutcome, failureMessage]
  | exn m =>
      refine ⟨?_, ?_, rfl⟩ <;>
        simp [submitReset, SessionState.phase, SessionState.terminalOutcome, failureMessage]

/-- C4 witness: a non-ok response at the initial state yields phase Errored,
the thrown failure message as terminal outcome, and one request. -/
theorem c4_witness :
    (handleSubmit initialState FetchOutcome.httpError).1.phase = Phase.Errored ∧
    (handleSubmit initialState FetchOutcome.httpError).1.terminalOutcome
      = some (failureMessage FetchOutcome.httpError) ∧
    (handleSubmit initialState FetchOutcome.httpError).2 = 1 :=
  c4_submit_failure initialState FetchOutcome.httpError (by decide) (by decide) rfl

/-! ### Claim C5 -/

/-- C5 counterexample: in the initial state the phase is Idle (not Running),
yet with the WebSocket open `handleStop` writes the `"stop"` token to the
channel — the handler does not consult the phase, refuting the claim at a
concrete input. -/
theorem c5_counterexample :
    initialState.phase ≠ Phase.Running ∧
    (handleStop initialState (some WsReadyState.isOpen)).2 = some "stop" := by
  exact ⟨by decide, rfl⟩

/-- C5 (amended): `handleStop`'s guard is channel-openness, not phase: the
cancellation token is written iff the WebSocket ref exists and is OPEN,
independently of the session phase; the `phase != Running` guard exists only
at the UI level — the Stop button is disabled whenever the phase is not
Running, so no cancellation is sent through the button outside Running. -/
theorem c5_amended (s : SessionState) (ws : Option WsReadyState) :
    ((handleStop s ws).2 = some "stop" ↔ ws = some WsReadyState.isOpen) ∧
    (s.phase ≠ Phase.Running → stopButtonDisabled s = true) := by
  constructor
  · unfold handleStop
    split
    · rename_i h
      simp [h]
    · rename_i h
      simp [h]
  · intro hrun
    have hload : s.isLoading = false := by
      cases h : s.isLoading
      · rfl
      · exact absurd ((phase_running_iff s).2 h) hrun
    unfold stopButtonDisabled
    rw [hload]
    rfl

/-- C5 witness: at the initial state with an open socket the token is sent,
and in the same (Idle) state the Stop button is disabled. -/
theorem c5_witness :
    (handleStop initialState (some WsReadyState.isOpen)).2 = some "stop" ∧
    stopButtonDisabled initialState = true :=
  ⟨(c5_amended initialState (some WsReadyState.isOpen)).1.2 rfl,
   (c5_amended initialState (some WsReadyState.isOpen)).2 (by decide)⟩

/-! ### Claim C6 -/

/-- C6: folding any sequence of N well-formed StepEvents into a Running state
with an empty log yields a log of length exactly N whose i-th entry is the
derived line `"Step " ++ stepIndex ++ ": " ++ rationale` of the i-th event, in
arrival order; the session moreover stays Running throughout (StepEvents never
touch the running flag), so every event in the sequence is indeed applied
while the phase is Running. -/
theorem c6_step_log (s : SessionState) (events : List (Nat × String × Option String))
    (hlog : s.logs = []) (hrun : s.phase = Phase.Running) :
    (applySteps s events).logs.length = events.length ∧
    (applySteps s events).logs = events.map stepLine ∧
    (applySteps s events).phase = Phase.Running := by
  have h := applySteps_logs events s
  rw [hlog, List.nil_append] at h
  refine ⟨by rw [h]; simp, h, ?_⟩
  rw [phase_running_iff, applySteps_isLoading, ← phase_running_iff]
  exact hrun

/-- C6 witness: two concrete StepEvents applied to the reset state reached by
an accepted submission produce exactly their two derived log lines. -/
theorem c6_witness :
    (applySteps (submitReset initialState)
        [(1, "searching", (none : Option String)), (2, "clicking", some "QUJD")]).logs.length
      = ([(1, "searching", (none : Option String)), (2, "clicking", some "QUJD")] :
          List (Nat × String × Option String)).length ∧
    (applySteps (submitReset initialState)
        [(1, "searching", (none : Option String)), (2, "clicking", some "QUJD")]).logs
      = ([(1, "searching", (none : Option String)), (2, "clicking", some "QUJD")] :
          List (Nat × String × Option String)).map stepLine ∧
    (applySteps (submitReset initialState)
        [(1, "searching", (none : Option String)), (2, "clicking", some "QUJD")]).phase
      = Phase.Running :=
  c6_step_log (submitReset initialState)
    [(1, "searching", none), (2, "clicking", some "QUJD")] rfl (by decide)

/-! ### Claim C7 -/

/-- C7: applying the same well-formed TerminalEvent (a payload whose `status`
is `"done"` or `"error"`) twice in succession yields the same phase and the
same terminal outcome as applying it once — indeed the same entire state —
so the terminal transition is idempotent. -/
theorem c7_terminal_idempotent (s : SessionState) (m : RawMsg)
    (hterm : m.status = some "done" ∨ m.status = some "error") :
    (onMessage (onMessage s m) m).phase = (onMessage s m).phase ∧
    (onMessage (onMessage s m) m).terminalOutcome = (onMessage s m).terminalOutcome := by
  have h : onMessage (onMessage s m) m = onMessage s m := by
    rcases hterm with h | h
    · rw [onMessage_done_eq _ m h, onMessage_done_eq _ m h]
    · rw [onMessage_error_eq _ m h, onMessage_error_eq _ m h]
  rw [h]
  exact ⟨rfl, rfl⟩

/-- C7 witness: the Done event carrying "OK", applied twice at the initial
state, agrees with a single application on phase and terminal outcome. -/
theorem c7_witness :
    (onMessage (onMessage initialState (doneMsg "OK")) (doneMsg "OK")).phase
      = (onMessage initialState (doneMsg "OK")).phase ∧
    (onMessage (onMessage initialState (doneMsg "OK")) (doneMsg "OK")).terminalOutcome
      = (onMessage initialState (doneMsg "OK")).terminalOutcome :=
  c7_terminal_idempotent initialState (doneMsg "OK") (Or.inl rfl)

/-! ### Claim C8 -/

/-- C8 counterexample: a StepEvent that carries the empty string as its
screenshot payload (present but JS-falsy) does NOT replace
`latestScreenshot`: the handler's truthiness test skips it, so the field
stays at its prior value instead of becoming the data URL of the carried
payload — refuting "each StepEvent that carries a screenshotPayload replaces
latestScreenshot" at a concrete input. -/
theorem c8_counterexample :
    (stepMsg 2 "again" (some "")).screenshot ≠ none ∧
    (onMessage initialState (stepMsg 2 "again" (some ""))).screenshot
      = initialState.screenshot ∧
    (onMessage initialState (stepMsg 2 "again" (some ""))).screenshot
      ≠ some ("data:image/png;base64," ++ "") := by
  refine ⟨by decide, by decide, by decide⟩

/-- C8 (amended): a StepEvent carrying a truthy (non-empty) screenshot payload
replaces `latestScreenshot` with the data URL built from it (overwrites, never
accumulates); a StepEvent whose payload is absent or empty leaves it
unchanged; and no message carrying a `status` field — in particular no
TerminalEvent — ever touches `latestScreenshot`, so the last frame persists
after the session ends. -/
theorem c8_screenshot (s : SessionState) (m : RawMsg) (p : String) :
    (m.status = none → m.screenshot = some p → p ≠ "" →
      (onMessage s m).screenshot = some ("data:image/png;base64," ++ p)) ∧
    (m.status = none → jsTruthy m.screenshot = false →
      (onMessage s m).screenshot = s.screenshot) ∧
    (∀ st : String, m.status = some st → (onMessage s m).screenshot = s.screenshot) := by
  refine ⟨?_, ?_, ?_⟩
  · intro hst hss hp
    rw [onMessage_step_eq s m hst, if_pos]
    · rw [hss]
      rfl
    · simp [jsTruthy, hss, hp]
  · intro hst hss
    rw [onMessage_step_eq s m hst, if_neg]
    simp [hss]
  · intro st hst
    obtain ⟨st0, res, msg, stp, th, ac, ss⟩ := m
    simp only at hst
    subst hst
    simp only [onMessage]
    split
    · rfl
    · split
      · rfl
      · rfl

/-- C8 witness: a concrete StepEvent with a non-empty payload replaces the
screenshot with its data URL; one with no payload leaves it unchanged; the
Done TerminalEvent leaves it unchanged. -/
theorem c8_witness :
    (onMessage initialState (stepMsg 1 "go" (some "IMG"))).screenshot
      = some ("data:image/png;base64," ++ "IMG") ∧
    (onMessage initialState (stepMsg 1 "go" none)).screenshot
      = initialState.screenshot ∧
    (onMessage initialState (doneMsg "OK")).screenshot = initialState.screenshot :=
  ⟨(c8_screenshot initialState (stepMsg 1 "go" (some "IMG")) "IMG").1 rfl rfl (by decide),
   (c8_screenshot initialState (stepMsg 1 "go" none) "").2.1 rfl rfl,
   (c8_screenshot initialState (doneMsg "OK") "").2.2 "done" rfl⟩

/-! ### Claim C10 -/

/-- C10: a Done TerminalEvent never touches the recorded error message and an
Errored TerminalEvent never touches the recorded result text; consequently,
receiving a Done event and then an Errored event without an intervening
submission leaves both the result text and the error message simultaneously
set. -/
theorem c10_terminal_independence (s : SessionState) (r e : String) :
    (onMessage s (doneMsg r)).error = s.error ∧
    (onMessage s (errorMsg e)).result = s.result ∧
    (onMessage (onMessage s (doneMsg r)) (errorMsg e)).result = r ∧
    (onMessage (onMessage s (doneMsg r)) (errorMsg e)).error = some e := by
  rw [onMessage_done_eq s (doneMsg r) rfl]
  rw [onMessage_error_eq _ (errorMsg e) rfl]
  rw [onMessage_error_eq _ (errorMsg e) rfl]
  exact ⟨rfl, rfl, rfl, rfl⟩

end BrowserUseWebUI
